import Mathlib

/-!
Verification of the pyfootball client library.

This file embeds, in Lean, the behaviour of the two source files
`pyfootball/football.py` and `pyfootball/models/fixture.py`:

* JSON documents are modelled by the inductive type `Json` (the output of
  Python's `json` decoder: `None`, `bool`, `int`, `str`, `list`, `dict`
  with string keys).
* Python exceptions relevant to this code are modelled by `PyErr`; a
  computation that may raise is an `Except PyErr` value.
* `Fixture.__init__` is modelled by `fixtureInit`, threading the object
  state explicitly so that the attributes already assigned when a
  `KeyError` is caught are preserved (the `except KeyError` handler prints
  a stack trace, a side effect outside the model, and falls off the end of
  `__init__`, so the constructor returns normally).
* The query methods of the `Football` class are modelled as functions of a
  network oracle `net : String → Response` mapping a requested endpoint to
  the HTTP response; each method returns its result together with the list
  of endpoints it actually requested, in order.
-/

/-- A JSON value as decoded by Python's json module. -/
inductive Json where
  | null : Json
  | bool : Bool → Json
  | num : Int → Json
  | str : String → Json
  | arr : List Json → Json
  | obj : List (String × Json) → Json

/-- The Python exceptions that the embedded code can raise. -/
inductive PyErr where
  | keyError : PyErr
  | typeError : PyErr
  | attrError : PyErr
  | indexError : PyErr
  | valueError : PyErr
  | httpError : PyErr
  deriving Repr, DecidableEq

mutual
/-- Structural equality of JSON values (Python's == on decoded values). -/
def Json.beq : Json → Json → Bool
  | .null, .null => true
  | .bool a, .bool b => a == b
  | .num a, .num b => a == b
  | .str a, .str b => a == b
  | .arr a, .arr b => Json.beqList a b
  | .obj a, .obj b => Json.beqFields a b
  | _, _ => false

def Json.beqList : List Json → List Json → Bool
  | [], [] => true
  | x :: xs, y :: ys => Json.beq x y && Json.beqList xs ys
  | _, _ => false

def Json.beqFields : List (String × Json) → List (String × Json) → Bool
  | [], [] => true
  | x :: xs, y :: ys => x.1 == y.1 && Json.beq x.2 y.2 && Json.beqFields xs ys
  | _, _ => false
end

/-- First binding of a key in a JSON object's field list. -/
def lookupField : List (String × Json) → String → Option Json
  | [], _ => none
  | (k, v) :: rest, key => if k == key then some v else lookupField rest key

/-- Python subscripting `j[key]` with a string key: a dict yields the bound
value or raises KeyError; subscripting any non-dict value with a string
raises TypeError. -/
def getItem : Json → String → Except PyErr Json
  | .obj fields, key =>
    match lookupField fields key with
    | some v => .ok v
    | none => .error .keyError
  | _, _ => .error .typeError

/-- Python `key in j` as used on `data['result']` (a dict there): key
containment test. On a non-dict the construct would not test keys, so the
model raises TypeError; the code only reaches it after subscripting the
same value succeeded, which in this model forces a dict. -/
def pyContainsKey : Json → String → Except PyErr Bool
  | .obj fields, key => .ok (fields.any (fun p => p.1 == key))
  | _, _ => .error .typeError

/-- Python truthiness of a decoded JSON value. -/
def pyTruthy : Json → Bool
  | .null => false
  | .bool b => b
  | .num n => n != 0
  | .str s => s != ""
  | .arr l => !l.isEmpty
  | .obj l => !l.isEmpty

/-- Whether the value is Python's None (`is None` / `is not None`). -/
def Json.isNull : Json → Bool
  | .null => true
  | _ => false

/-- Python `'{0}'.format(v)`-style conversion, i.e. `str(v)`; only the
int and str cases are ever reached by the claims. -/
def pyStr : Json → String
  | .null => "None"
  | .bool b => cond b "True" "False"
  | .num n => toString n
  | .str s => s
  | .arr _ => "<list>"
  | .obj _ => "<dict>"

/-- Python `len(v)`: defined on str, list and dict, TypeError otherwise. -/
def pyLen : Json → Except PyErr Nat
  | .str s => .ok s.length
  | .arr l => .ok l.length
  | .obj l => .ok l.length
  | _ => .error .typeError

/-- Python `v[i]` with a nonnegative int index: lists index (IndexError past
the end), strings yield a one-character string, dicts look the int up as a
key (never a key of a decoded-JSON dict, whose keys are strings, hence
KeyError), other values raise TypeError. -/
def getIndex : Json → Nat → Except PyErr Json
  | .arr l, i =>
    match l.get? i with
    | some v => .ok v
    | none => .error .indexError
  | .str s, i =>
    match s.toList.get? i with
    | some c => .ok (.str (String.singleton c))
    | none => .error .indexError
  | .obj _, _ => .error .keyError
  | _, _ => .error .typeError

/-- Python iteration `for x in v`: lists yield elements, dicts their keys,
strings their characters, anything else raises TypeError. -/
def pyIter : Json → Except PyErr (List Json)
  | .arr l => .ok l
  | .obj l => .ok (l.map (fun p => Json.str p.1))
  | .str s => .ok (s.toList.map (fun c => Json.str (String.singleton c)))
  | _ => .error .typeError

/-- Python `s.split("/")`: cut the character list at every slash, keeping
empty pieces, never returning an empty list of pieces. -/
def splitSlashAux : List Char → List Char → List (List Char)
  | [], cur => [cur.reverse]
  | c :: rest, cur =>
    if c = '/' then cur.reverse :: splitSlashAux rest []
    else splitSlashAux rest (c :: cur)

/-- Python `s.split("/")` on a string. -/
def pySplitSlash (s : String) : List String :=
  (splitSlashAux s.toList []).map String.mk

/-- The Python expression `s.split("/")[-1]` from fixture.py lines 21-24:
`split` never returns an empty list, so `[-1]` is its last element. -/
def lastSegment (s : String) : String := (pySplitSlash s).getLastD ""

/-- `v.split("/")[-1]` on an arbitrary attribute value. -/
def splitSlashLast : Json → Except PyErr String
  | .str s => .ok (lastSegment s)
  | _ => .error .attrError

/-- The score sub-dict built for `self.result['half_time']`
(fixture.py lines 33-36). -/
structure HalfTimeScore where
  home_team_goals : Json
  away_team_goals : Json

/-- The dict assigned to `self.result` (fixture.py lines 27-36):
two goal counts, and a `half_time` entry added only when the source
result carries a `halfTime` key. -/
structure FixtureResult where
  home_team_goals : Json
  away_team_goals : Json
  half_time : Option HalfTimeScore := none

/-- The dict assigned to `self.odds` (fixture.py lines 41-45). -/
structure FixtureOdds where
  home_win : Json
  draw : Json
  away_win : Json

/-- The attributes of a Fixture object. A `none` field is an attribute the
constructor never assigned (possible because the `except KeyError` handler
lets `__init__` return with the assignment sequence cut short); `result`
and `odds` are doubly optional since the code itself assigns them `None`
when the source document has no result goals / falsy odds. -/
structure Fixture where
  _home_team_ep : Option Json := none
  _away_team_ep : Option Json := none
  _competition_ep : Option Json := none
  date : Option Json := none
  status : Option Json := none
  matchday : Option Json := none
  home_team : Option Json := none
  home_team_id : Option String := none
  away_team : Option Json := none
  away_team_id : Option String := none
  competition_id : Option String := none
  result : Option (Option FixtureResult) := none
  odds : Option (Option FixtureOdds) := none

/-- One statement of the `try` block of `Fixture.__init__`: if evaluating
`x` raises KeyError, the handler catches it (printing a trace) and
`__init__` returns normally with the attributes assigned so far, `s`; any
other exception propagates to the caller; on success the block continues. -/
def withStep {α : Type} (s : Fixture) (x : Except PyErr α)
    (f : α → Except PyErr Fixture) : Except PyErr Fixture :=
  match x with
  | .error .keyError => .ok s
  | .error e => .error e
  | .ok a => f a

/-- `data['_links'][side]['href']` (fixture.py lines 14-16). -/
def getHref (data : Json) (side : String) : Except PyErr Json := do
  let links ← getItem data "_links"
  let t ← getItem links side
  getItem t "href"

/-- `data['result'][key]` (fixture.py lines 26-35). -/
def getResultField (data : Json) (key : String) : Except PyErr Json := do
  let r ← getItem data "result"
  getItem r key

/-- `data['odds'][key]` (fixture.py lines 42-44). -/
def getOddsField (data : Json) (key : String) : Except PyErr Json := do
  let o ← getItem data "odds"
  getItem o key

/-- `'halfTime' in data['result']` (fixture.py line 31). -/
def resultHasHalfTime (data : Json) : Except PyErr Bool := do
  let r ← getItem data "result"
  pyContainsKey r "halfTime"

/-- fixture.py lines 40-47: `self.odds` is the odds dict when
`data['odds']` is truthy, else `None`. -/
def oddsPhase (s : Fixture) (data : Json) : Except PyErr Fixture :=
  withStep s (getItem data "odds") fun o =>
  match pyTruthy o with
  | true =>
    withStep s (getOddsField data "homeWin") fun hw =>
    withStep s (getOddsField data "draw") fun dr =>
    withStep s (getOddsField data "awayWin") fun aw =>
    Except.ok { s with odds := some (some
      { home_win := hw, draw := dr, away_win := aw }) }
  | false =>
    Except.ok { s with odds := some none }

/-- fixture.py lines 31-36: `self.result['half_time']` is filled in only
when the source result has a `halfTime` key; `res` is the result dict that
was just assigned (without half-time), already stored in `s`. -/
def halfTimePhase (s : Fixture) (data : Json) (res : FixtureResult) :
    Except PyErr Fixture :=
  withStep s (resultHasHalfTime data) fun hasHT =>
  match hasHT with
  | true =>
    withStep s (getResultField data "halfTime") fun ht =>
    withStep s (getItem ht "goalsHomeTeam") fun hth =>
    withStep s (getItem ht "goalsAwayTeam") fun hta =>
    let htScore : HalfTimeScore := { home_team_goals := hth, away_team_goals := hta }
    let res2 : FixtureResult := { res with half_time := some htScore }
    oddsPhase { s with result := some (some res2) } data
  | false =>
    oddsPhase s data

/-- fixture.py lines 26-47: the result is the goals dict when
`data['result']['goalsHomeTeam'] is not None`, else `None`; the dict
literal at lines 27-30 evaluates the goalsHomeTeam subscript a second
time, then goalsAwayTeam. -/
def resultPhase (s : Fixture) (data : Json) : Except PyErr Fixture :=
  withStep s (getResultField data "goalsHomeTeam") fun g =>
  match g.isNull with
  | false =>
    withStep s (getResultField data "goalsHomeTeam") fun g2 =>
    withStep s (getResultField data "goalsAwayTeam") fun ga =>
    let res : FixtureResult := { home_team_goals := g2, away_team_goals := ga }
    halfTimePhase { s with result := some (some res) } data res
  | true =>
    oddsPhase { s with result := some none } data

/-- `Fixture.__init__(data)` (fixture.py lines 13-50): the assignment
sequence of the try block, with the `except KeyError` handler modelled by
`withStep`. Returns the constructed object, or the uncaught exception. -/
def fixtureInit (data : Json) : Except PyErr Fixture :=
  let s0 : Fixture := {}
  withStep s0 (getHref data "homeTeam") fun hho =>
  let s1 := { s0 with _home_team_ep := some hho }
  withStep s1 (getHref data "awayTeam") fun hao =>
  let s2 := { s1 with _away_team_ep := some hao }
  withStep s2 (getHref data "competition") fun cmp =>
  let s3 := { s2 with _competition_ep := some cmp }
  withStep s3 (getItem data "date") fun dt =>
  let s4 := { s3 with date := some dt }
  withStep s4 (getItem data "status") fun st =>
  let s5 := { s4 with status := some st }
  withStep s5 (getItem data "matchday") fun md =>
  let s6 := { s5 with matchday := some md }
  withStep s6 (getItem data "homeTeamName") fun htn =>
  let s7 := { s6 with home_team := some htn }
  withStep s7 (splitSlashLast hho) fun hid =>
  let s8 := { s7 with home_team_id := some hid }
  withStep s8 (getItem data "awayTeamName") fun atn =>
  let s9 := { s8 with away_team := some atn }
  withStep s9 (splitSlashLast hao) fun aid =>
  let s10 := { s9 with away_team_id := some aid }
  withStep s10 (splitSlashLast cmp) fun cid =>
  let s11 := { s10 with competition_id := some cid }
  resultPhase s11 data

/-! ## The Football client (pyfootball/football.py)

HTTP is modelled by an oracle `net : String → Response` giving the response
the server returns for a requested endpoint. Each method returns its
result (or the exception it raises) paired with the list of endpoints it
requested, in order. The process-wide `globals.prev_response` bookkeeping
has no bearing on any return value and is not modelled beyond that list. -/

/-- An HTTP response: status code and decoded JSON body (`r.json()`). -/
structure Response where
  status : Nat
  body : Json

/-- `requests.Response.raise_for_status` raises an HTTPError exactly for
4xx and 5xx status codes. -/
def isHttpError (r : Response) : Bool := 400 ≤ r.status && r.status < 600

/-- Modelled from the spec: the endpoint templates live in
pyfootball/globals.py, which is not part of the given sources; the spec
describes a static mapping of logical operation names to URL templates on
one API host, parameterized by a numeric ID or a name query string. The
exact URL text is irrelevant to every claim; only that each template is a
function of its parameter. -/
def endpoint_team (x : String) : String := "teams/" ++ x

/-- Modelled from the spec: see endpoint_team. -/
def endpoint_competition (x : String) : String := "competitions/" ++ x

/-- Modelled from the spec: see endpoint_team. -/
def endpoint_all_competitions : String := "competitions"

/-- Modelled from the spec: see endpoint_team. -/
def endpoint_league_table (x : String) : String :=
  "competitions/" ++ x ++ "/leagueTable"

/-- Modelled from the spec: see endpoint_team. -/
def endpoint_comp_fixtures (x : String) : String :=
  "competitions/" ++ x ++ "/fixtures"

/-- Modelled from the spec: see endpoint_team. -/
def endpoint_comp_teams (x : String) : String :=
  "competitions/" ++ x ++ "/teams"

/-- Modelled from the spec: see endpoint_team. -/
def endpoint_fixture (x : String) : String := "fixtures/" ++ x

/-- Modelled from the spec: see endpoint_team. -/
def endpoint_all_fixtures : String := "fixtures"

/-- Modelled from the spec: see endpoint_team. -/
def endpoint_team_players (x : String) : String := "teams/" ++ x ++ "/players"

/-- Modelled from the spec: see endpoint_team. -/
def endpoint_team_fixtures (x : String) : String := "teams/" ++ x ++ "/fixtures"

/-- Modelled from the spec: pyfootball/models/competition.py is not part of
the given sources; per the spec (section 3) entities are passive value
objects built once from a JSON payload, so the model retains the payload. -/
structure Competition where
  data : Json

/-- Modelled from the spec: see Competition (models/team.py not given). -/
structure Team where
  data : Json

/-- Modelled from the spec: see Competition (models/leaguetable.py not
given). -/
structure LeagueTable where
  data : Json

/-- Modelled from the spec: see Competition (models/player.py not given). -/
structure Player where
  data : Json

/-- Python truthiness of an optional string (`api_key`, `os.getenv(...)`):
None and the empty string are falsy. -/
def pyTruthyOptStr : Option String → Bool
  | none => false
  | some s => s != ""

/-- `Football.__init__` (football.py lines 14-39): picks the key from the
`api_key` argument if truthy, else from the environment variable if
truthy, else raises ValueError before any request; with a key it sends one
test request to the all_competitions endpoint and raises for its status. -/
def football_init (net : String → Response) (api_key env_key : Option String) :
    Except PyErr String × List String :=
  if pyTruthyOptStr api_key then
    football_init_send net (api_key.getD "")
  else if pyTruthyOptStr env_key then
    football_init_send net (env_key.getD "")
  else
    (.error .valueError, [])
where
  football_init_send (net : String → Response) (key : String) :
      Except PyErr String × List String :=
    let ep := endpoint_all_competitions
    let r := net ep
    if isHttpError r then (.error .httpError, [ep]) else (.ok key, [ep])

/-- `Football.get_competition` (football.py lines 48-63). -/
def get_competition (net : String → Response) (comp_id : Int) :
    Except PyErr Competition × List String :=
  let ep := endpoint_competition (toString comp_id)
  let r := net ep
  if isHttpError r then (.error .httpError, [ep])
  else (.ok (Competition.mk r.body), [ep])

/-- `Football.get_all_competitions` (football.py lines 65-82): iterates the
top-level JSON value, wrapping each element. -/
def get_all_competitions (net : String → Response) :
    Except PyErr (List Competition) × List String :=
  let ep := endpoint_all_competitions
  let r := net ep
  if isHttpError r then (.error .httpError, [ep])
  else
    match pyIter r.body with
    | .error e => (.error e, [ep])
    | .ok items => (.ok (items.map Competition.mk), [ep])

/-- `Football.get_league_table` (football.py lines 84-100). -/
def get_league_table (net : String → Response) (comp_id : Int) :
    Except PyErr LeagueTable × List String :=
  let ep := endpoint_league_table (toString comp_id)
  let r := net ep
  if isHttpError r then (.error .httpError, [ep])
  else (.ok (LeagueTable.mk r.body), [ep])

/-- `data['fixtures']` iterated into Fixture objects (football.py lines
118-122, 179-183, 269-273); an exception escaping one of the constructors
aborts the loop. -/
def fixturesOf (j : Json) : Except PyErr (List Fixture) := do
  let fx ← getItem j "fixtures"
  let items ← pyIter fx
  items.mapM fixtureInit

/-- `Football.get_comp_fixtures` (football.py lines 102-122). -/
def get_comp_fixtures (net : String → Response) (comp_id : Int) :
    Except PyErr (List Fixture) × List String :=
  let ep := endpoint_comp_fixtures (toString comp_id)
  let r := net ep
  if isHttpError r then (.error .httpError, [ep])
  else
    match fixturesOf r.body with
    | .error e => (.error e, [ep])
    | .ok l => (.ok l, [ep])

/-- `Football.get_competition_teams` (football.py lines 124-144). -/
def get_competition_teams (net : String → Response) (comp_id : Int) :
    Except PyErr (List Team) × List String :=
  let ep := endpoint_comp_teams (toString comp_id)
  let r := net ep
  if isHttpError r then (.error .httpError, [ep])
  else
    match (do
        let tl ← getItem r.body "teams"
        let items ← pyIter tl
        Except.ok (items.map Team.mk)) with
    | .error e => (.error e, [ep])
    | .ok l => (.ok l, [ep])

/-- `Football.get_fixture` (football.py lines 146-163): after
raise_for_status, builds `Fixture(r.json()['fixture'])`. -/
def get_fixture (net : String → Response) (fixture_id : Int) :
    Except PyErr Fixture × List String :=
  let ep := endpoint_fixture (toString fixture_id)
  let r := net ep
  if isHttpError r then (.error .httpError, [ep])
  else
    match (do
        let fx ← getItem r.body "fixture"
        fixtureInit fx) with
    | .error e => (.error e, [ep])
    | .ok f => (.ok f, [ep])

/-- `Football.get_all_fixtures` (football.py lines 165-183). -/
def get_all_fixtures (net : String → Response) :
    Except PyErr (List Fixture) × List String :=
  let ep := endpoint_all_fixtures
  let r := net ep
  if isHttpError r then (.error .httpError, [ep])
  else
    match fixturesOf r.body with
    | .error e => (.error e, [ep])
    | .ok l => (.ok l, [ep])

/-- The name branch of `Football.get_team` (football.py lines 210-228):
reached when `team_id` is falsy. A falsy or missing `team_name` falls to
the final ValueError; a name shorter than 3 characters raises ValueError
before any request; otherwise a search request is made, an empty `teams`
list returns None, and the first match's id is fetched with a second
request. -/
def get_team_by_name (net : String → Response) (team_name : Option String) :
    Except PyErr (Option Team) × List String :=
  match team_name with
  | none => (.error .valueError, [])
  | some nm =>
    if nm != "" then
      if nm.length < 3 then (.error .valueError, [])
      else
        let name := nm.replace " " "%20"
        let ep1 := endpoint_team ("?name=" ++ name)
        let r1 := net ep1
        if isHttpError r1 then (.error .httpError, [ep1])
        else
          match getItem r1.body "teams" with
          | .error e => (.error e, [ep1])
          | .ok teams =>
            match pyLen teams with
            | .error e => (.error e, [ep1])
            | .ok n =>
              if n == 0 then (.ok none, [ep1])
              else
                match (do
                    let t ← getIndex teams 0
                    getItem t "id") with
                | .error e => (.error e, [ep1])
                | .ok idv =>
                  let ep2 := endpoint_team (pyStr idv)
                  let r2 := net ep2
                  if isHttpError r2 then (.error .httpError, [ep1, ep2])
                  else (.ok (some (Team.mk r2.body)), [ep1, ep2])
    else (.error .valueError, [])

/-- `Football.get_team` (football.py lines 185-228): a truthy int
`team_id` is fetched directly; otherwise the name branch runs. -/
def get_team (net : String → Response) (team_id : Option Int)
    (team_name : Option String) : Except PyErr (Option Team) × List String :=
  match team_id with
  | some tid =>
    if tid != 0 then
      let ep := endpoint_team (toString tid)
      let r := net ep
      if isHttpError r then (.error .httpError, [ep])
      else (.ok (some (Team.mk r.body)), [ep])
    else get_team_by_name net team_name
  | none => get_team_by_name net team_name

/-- `Football.get_team_players` (football.py lines 230-251). -/
def get_team_players (net : String → Response) (team_id : Int) :
    Except PyErr (List Player) × List String :=
  let ep := endpoint_team_players (toString team_id)
  let r := net ep
  if isHttpError r then (.error .httpError, [ep])
  else
    match (do
        let pl ← getItem r.body "players"
        let items ← pyIter pl
        Except.ok (items.map Player.mk)) with
    | .error e => (.error e, [ep])
    | .ok l => (.ok l, [ep])

/-- `Football.get_team_fixtures` (football.py lines 253-273). -/
def get_team_fixtures (net : String → Response) (team_id : Int) :
    Except PyErr (List Fixture) × List String :=
  let ep := endpoint_team_fixtures (toString team_id)
  let r := net ep
  if isHttpError r then (.error .httpError, [ep])
  else
    match fixturesOf r.body with
    | .error e => (.error e, [ep])
    | .ok l => (.ok l, [ep])

/-- `matches[k] = v` on a Python dict modelled as an insertion-ordered
association list: an existing key is overwritten in place, a new key is
appended. -/
def dictInsert (d : List (Json × Json)) (k v : Json) : List (Json × Json) :=
  if d.any (fun p => Json.beq p.1 k) then
    d.map (fun p => if Json.beq p.1 k then (k, v) else p)
  else d ++ [(k, v)]

/-- The loop of `Football.search_teams` (football.py lines 298-300):
`matches[team['id']] = team['name']` for each team. -/
def buildMatches : List Json → List (Json × Json) →
    Except PyErr (List (Json × Json))
  | [], acc => .ok acc
  | t :: ts, acc => do
    let i ← getItem t "id"
    let n ← getItem t "name"
    buildMatches ts (dictInsert acc i n)

/-- Python `x is 0` (football.py line 295): identity with the interned int
0, true exactly for the int value 0. -/
def pyIsZero : Json → Bool
  | .num n => n == 0
  | _ => false

/-- `Football.search_teams` (football.py lines 275-301): one search
request; `None` when `data['count'] is 0`, else the id-to-name dict. -/
def search_teams (net : String → Response) (team_name : String) :
    Except PyErr (Option (List (Json × Json))) × List String :=
  let name := team_name.replace " " "%20"
  let ep := endpoint_team ("?name=" ++ name)
  let r := net ep
  if isHttpError r then (.error .httpError, [ep])
  else
    match getItem r.body "count" with
    | .error e => (.error e, [ep])
    | .ok c =>
      if pyIsZero c then (.ok none, [ep])
      else
        match (do
            let tl ← getItem r.body "teams"
            let items ← pyIter tl
            buildMatches items []) with
        | .error e => (.error e, [ep])
        | .ok d => (.ok (some d), [ep])

/-! ## Document families and theorems -/

/-- A fixture document of the shape the API serves: all required keys
present, hyperlink hrefs strings, with arbitrary values for the plain
fields and arbitrary `result` and `odds` values. -/
def mkFixtureDoc (hho hao cmp : String) (dt st md htn atn result odds : Json) :
    Json :=
  Json.obj [
    ("_links", Json.obj [
      ("homeTeam", Json.obj [("href", Json.str hho)]),
      ("awayTeam", Json.obj [("href", Json.str hao)]),
      ("competition", Json.obj [("href", Json.str cmp)])]),
    ("date", dt), ("status", st), ("matchday", md),
    ("homeTeamName", htn), ("awayTeamName", atn),
    ("result", result), ("odds", odds)]

/-- The Fixture attributes that `__init__` assigns before reaching the
result and odds blocks, on a document built by `mkFixtureDoc`. -/
def baseFixture (hho hao cmp : String) (dt st md htn atn : Json) : Fixture :=
  { _home_team_ep := some (Json.str hho),
    _away_team_ep := some (Json.str hao),
    _competition_ep := some (Json.str cmp),
    date := some dt, status := some st, matchday := some md,
    home_team := some htn, home_team_id := some (lastSegment hho),
    away_team := some atn, away_team_id := some (lastSegment hao),
    competition_id := some (lastSegment cmp) }

/-- C1: evaluation of the code at the failing input. On a document missing
a required key (here the empty dict, which lacks `_links`), `Fixture.__init__`
does NOT surface an error to the caller: the KeyError is caught, a trace is
printed, and construction completes normally, returning an object with no
attribute assigned. This contradicts the claim's required-key half; the
spec itself (section 7) calls this behaviour a defect. -/
theorem fixture_missing_required_key_completes :
    fixtureInit (Json.obj []) = Except.ok ({} : Fixture) := rfl

/-- C7: on a fixture document with every required key, absent optional
substructures are modelled as None rather than failing: a null
`goalsHomeTeam` yields `result = None`; a falsy `odds` value yields
`odds = None`; and the `half_time` sub-record is present in the result
exactly when the document's result carries a `halfTime` key (absent
without it, filled from it with it); a truthy odds dict is projected into
the odds sub-record. -/
theorem fixture_optional_substructures (hho hao cmp : String)
    (dt st md htn atn ga h1 h2 hw dr aw : Json) (gh : Int) :
    fixtureInit (mkFixtureDoc hho hao cmp dt st md htn atn
        (Json.obj [("goalsHomeTeam", Json.null)]) Json.null)
      = Except.ok { baseFixture hho hao cmp dt st md htn atn with
          result := some none, odds := some none } ∧
    fixtureInit (mkFixtureDoc hho hao cmp dt st md htn atn
        (Json.obj [("goalsHomeTeam", Json.num gh), ("goalsAwayTeam", ga)])
        (Json.obj [("homeWin", hw), ("draw", dr), ("awayWin", aw)]))
      = Except.ok { baseFixture hho hao cmp dt st md htn atn with
          result := some (some (FixtureResult.mk (Json.num gh) ga none)),
          odds := some (some (FixtureOdds.mk hw dr aw)) } ∧
    fixtureInit (mkFixtureDoc hho hao cmp dt st md htn atn
        (Json.obj [("goalsHomeTeam", Json.num gh), ("goalsAwayTeam", ga),
          ("halfTime", Json.obj [("goalsHomeTeam", h1), ("goalsAwayTeam", h2)])])
        Json.null)
      = Except.ok { baseFixture hho hao cmp dt st md htn atn with
          result := some (some (FixtureResult.mk (Json.num gh) ga
            (some (HalfTimeScore.mk h1 h2)))),
          odds := some none } :=
  ⟨rfl, rfl, rfl⟩

/-- C9: construction is not atomic on a missing required key. First
conjunct: with `matchday` missing, every attribute assigned before that
access keeps its value (the three endpoint strings, date, status) and
every later attribute is never set, even though `homeTeamName` is present
in the document. Second conjunct: with `goalsAwayTeam` missing from a
result whose `goalsHomeTeam` is non-null, all eleven plain attributes are
set but `result` and `odds` are never set. -/
theorem fixture_partial_initialization (hho hao cmp : String)
    (dt st md htn atn odds : Json) (gh : Int) :
    fixtureInit (Json.obj [
        ("_links", Json.obj [
          ("homeTeam", Json.obj [("href", Json.str hho)]),
          ("awayTeam", Json.obj [("href", Json.str hao)]),
          ("competition", Json.obj [("href", Json.str cmp)])]),
        ("date", dt), ("status", st),
        ("homeTeamName", htn), ("awayTeamName", atn)])
      = Except.ok
        { _home_team_ep := some (Json.str hho),
          _away_team_ep := some (Json.str hao),
          _competition_ep := some (Json.str cmp),
          date := some dt, status := some st } ∧
    fixtureInit (mkFixtureDoc hho hao cmp dt st md htn atn
        (Json.obj [("goalsHomeTeam", Json.num gh)]) odds)
      = Except.ok (baseFixture hho hao cmp dt st md htn atn) :=
  ⟨rfl, rfl⟩

/-- C4: constructing Football with a falsy (absent or empty) api_key
argument and a falsy (absent or empty) PYFOOTBALL_API_KEY environment
variable raises ValueError immediately, with the empty request list
showing that no HTTP request was issued. -/
theorem football_init_requires_key (net : String → Response)
    (api_key env_key : Option String)
    (hk : pyTruthyOptStr api_key = false)
    (he : pyTruthyOptStr env_key = false) :
    football_init net api_key env_key =
      (Except.error PyErr.valueError, ([] : List String)) := by
  unfold football_init
  rw [hk, he]
  simp

/-- Witness for C4 at api_key = none, env = none. -/
theorem football_init_requires_key_witness :
    pyTruthyOptStr (none : Option String) = false ∧
    football_init (fun _ => Response.mk 200 Json.null) none none =
      (Except.error PyErr.valueError, ([] : List String)) :=
  ⟨rfl, football_init_requires_key _ none none rfl rfl⟩

/-- C10: get_team with no team_id and a team_name shorter than 3
characters raises ValueError with no HTTP request issued (the empty
string, being falsy, falls to the no-valid-arguments ValueError; a
nonempty short name hits the explicit length check). -/
theorem get_team_short_name_valueerror (net : String → Response)
    (nm : String) (h : nm.length < 3) :
    get_team net none (some nm) =
      (Except.error PyErr.valueError, ([] : List String)) := by
  unfold get_team get_team_by_name
  by_cases he : nm = ""
  · subst he; simp
  · simp [he, h]

/-- Witness for C10 at team_name = "ab". -/
theorem get_team_short_name_valueerror_witness :
    "ab".length < 3 ∧
    get_team (fun _ => Response.mk 200 Json.null) none (some "ab") =
      (Except.error PyErr.valueError, ([] : List String)) :=
  ⟨by decide, get_team_short_name_valueerror _ "ab" (by decide)⟩

/-- C2: zero-match name lookups return None rather than raising. First
conjunct: get_team by name, with a successful search response whose
`teams` list is empty, returns None after the single search request.
Second conjunct: search_teams, with a successful response whose `count`
is the int 0, returns None after its single request. -/
theorem team_search_zero_matches_returns_none :
    (∀ (net : String → Response) (nm : String), 3 ≤ nm.length →
      isHttpError (net (endpoint_team ("?name=" ++ nm.replace " " "%20"))) = false →
      getItem (net (endpoint_team ("?name=" ++ nm.replace " " "%20"))).body "teams"
        = Except.ok (Json.arr []) →
      get_team net none (some nm) =
        (Except.ok none, [endpoint_team ("?name=" ++ nm.replace " " "%20")])) ∧
    (∀ (net : String → Response) (nm : String),
      isHttpError (net (endpoint_team ("?name=" ++ nm.replace " " "%20"))) = false →
      getItem (net (endpoint_team ("?name=" ++ nm.replace " " "%20"))).body "count"
        = Except.ok (Json.num 0) →
      search_teams net nm =
        (Except.ok none, [endpoint_team ("?name=" ++ nm.replace " " "%20")])) := by
  constructor
  · intro net nm hlen hst hteams
    have hne : nm ≠ "" := by
      intro he; subst he; simp at hlen
    have hlt : ¬ nm.length < 3 := by omega
    unfold get_team get_team_by_name
    simp [hne, hlt, hst, hteams, pyLen]
  · intro net nm hst hcount
    unfold search_teams
    simp [hst, hcount, pyIsZero]

/-- Witness for C2: a constant network returning an empty teams list for
the first conjunct, and a count of 0 for the second. -/
theorem team_search_zero_matches_returns_none_witness :
    (3 ≤ "abc".length ∧
      get_team (fun _ => Response.mk 200 (Json.obj [("teams", Json.arr [])]))
          none (some "abc") =
        (Except.ok none, [endpoint_team ("?name=" ++ "abc".replace " " "%20")])) ∧
    search_teams (fun _ => Response.mk 200 (Json.obj [("count", Json.num 0)]))
        "abc" =
      (Except.ok none, [endpoint_team ("?name=" ++ "abc".replace " " "%20")]) :=
  ⟨⟨by decide, team_search_zero_matches_returns_none.1
      (fun _ => Response.mk 200 (Json.obj [("teams", Json.arr [])]))
      "abc" (by decide) rfl rfl⟩,
    team_search_zero_matches_returns_none.2
      (fun _ => Response.mk 200 (Json.obj [("count", Json.num 0)]))
      "abc" rfl rfl⟩

/-- C3: get_team by a valid name with at least one match issues the search
request, takes exactly the head of the returned `teams` list, and returns
the Team built from the body fetched at that head's id; the later matches
`rest` do not appear in the result, which is the same for every tail. -/
theorem get_team_by_name_takes_first_match (net : String → Response)
    (nm : String) (t idv : Json) (rest : List Json)
    (hlen : 3 ≤ nm.length)
    (hst : isHttpError (net (endpoint_team ("?name=" ++ nm.replace " " "%20"))) = false)
    (hteams : getItem (net (endpoint_team ("?name=" ++ nm.replace " " "%20"))).body "teams"
      = Except.ok (Json.arr (t :: rest)))
    (hid : getItem t "id" = Except.ok idv)
    (hst2 : isHttpError (net (endpoint_team (pyStr idv))) = false) :
    get_team net none (some nm) =
      (Except.ok (some (Team.mk (net (endpoint_team (pyStr idv))).body)),
       [endpoint_team ("?name=" ++ nm.replace " " "%20"),
        endpoint_team (pyStr idv)]) := by
  have hne : nm ≠ "" := by
    intro he; subst he; simp at hlen
  have hlt : ¬ nm.length < 3 := by omega
  unfold get_team get_team_by_name
  simp [hne, hlt, hst, hteams, hid, hst2, pyLen, getIndex, bind, Except.bind]

/-- Witness for C3: a constant network whose body holds one match of id 7;
the result is the Team built from the second request's body. -/
theorem get_team_by_name_takes_first_match_witness :
    3 ≤ "abc".length ∧
    getItem (Json.obj [("id", Json.num 7)]) "id" = Except.ok (Json.num 7) ∧
    get_team
        (fun _ => Response.mk 200
          (Json.obj [("teams", Json.arr [Json.obj [("id", Json.num 7)]])]))
        none (some "abc") =
      (Except.ok (some (Team.mk
          ((fun (_ : String) => Response.mk 200
            (Json.obj [("teams", Json.arr [Json.obj [("id", Json.num 7)]])]))
            (endpoint_team (pyStr (Json.num 7)))).body)),
       [endpoint_team ("?name=" ++ "abc".replace " " "%20"),
        endpoint_team (pyStr (Json.num 7))]) :=
  ⟨by decide, rfl,
    get_team_by_name_takes_first_match
      (fun _ => Response.mk 200
        (Json.obj [("teams", Json.arr [Json.obj [("id", Json.num 7)]])]))
      "abc" (Json.obj [("id", Json.num 7)]) (Json.num 7) []
      (by decide) rfl rfl rfl rfl⟩

/-- C6: with every response carrying a 4xx or 5xx status, each query
method of Football raises (its first component is the HTTPError from
raise_for_status) and returns no entity object, whole or partial. -/
theorem http_error_raised_before_entities (r : Response)
    (h : isHttpError r = true) (cid cid2 fid tid pid pid2 : Int) (nm : String)
    (htid : tid ≠ 0) (hlen : 3 ≤ nm.length) :
    (get_competition (fun _ => r) cid).1 = Except.error PyErr.httpError ∧
    (get_all_competitions (fun _ => r)).1 = Except.error PyErr.httpError ∧
    (get_league_table (fun _ => r) cid2).1 = Except.error PyErr.httpError ∧
    (get_comp_fixtures (fun _ => r) cid).1 = Except.error PyErr.httpError ∧
    (get_competition_teams (fun _ => r) cid).1 = Except.error PyErr.httpError ∧
    (get_fixture (fun _ => r) fid).1 = Except.error PyErr.httpError ∧
    (get_all_fixtures (fun _ => r)).1 = Except.error PyErr.httpError ∧
    (get_team (fun _ => r) (some tid) none).1 = Except.error PyErr.httpError ∧
    (get_team (fun _ => r) none (some nm)).1 = Except.error PyErr.httpError ∧
    (get_team_players (fun _ => r) pid).1 = Except.error PyErr.httpError ∧
    (get_team_fixtures (fun _ => r) pid2).1 = Except.error PyErr.httpError ∧
    (search_teams (fun _ => r) nm).1 = Except.error PyErr.httpError := by
  have hne : nm ≠ "" := by
    intro he; subst he; simp at hlen
  have hlt : ¬ nm.length < 3 := by omega
  refine ⟨?_, ?_, ?_, ?_, ?_, ?_, ?_, ?_, ?_, ?_, ?_, ?_⟩
  · unfold get_competition; simp [h]
  · unfold get_all_competitions; simp [h]
  · unfold get_league_table; simp [h]
  · unfold get_comp_fixtures; simp [h]
  · unfold get_competition_teams; simp [h]
  · unfold get_fixture; simp [h]
  · unfold get_all_fixtures; simp [h]
  · unfold get_team; simp [htid, h]
  · unfold get_team get_team_by_name; simp [hne, hlt, h]
  · unfold get_team_players; simp [h]
  · unfold get_team_fixtures; simp [h]
  · unfold search_teams; simp [h]

/-- Witness for C6 at a constant 404 response. -/
theorem http_error_raised_before_entities_witness :
    isHttpError (Response.mk 404 Json.null) = true ∧
    (5 : Int) ≠ 0 ∧ 3 ≤ "abc".length ∧
    (get_competition (fun _ => Response.mk 404 Json.null) 1).1 =
      Except.error PyErr.httpError ∧
    (search_teams (fun _ => Response.mk 404 Json.null) "abc").1 =
      Except.error PyErr.httpError :=
  ⟨rfl, by decide, by decide,
    (http_error_raised_before_entities (Response.mk 404 Json.null) rfl
      1 2 3 5 4 6 "abc" (by decide) (by decide)).1,
    (http_error_raised_before_entities (Response.mk 404 Json.null) rfl
      1 2 3 5 4 6 "abc" (by decide) (by decide)).2.2.2.2.2.2.2.2.2.2.2⟩

/-- The exceptions a statement of the Fixture try block can raise. -/
def InitStepErr (e : PyErr) : Prop :=
  e = PyErr.keyError ∨ e = PyErr.typeError ∨ e = PyErr.attrError

/-- The value read by one statement raises nothing outside `InitStepErr`. -/
def StepSafe {α : Type} (x : Except PyErr α) : Prop :=
  ∀ e, x = .error e → InitStepErr e

/-- The outcome of `Fixture.__init__` is a normal return, or an uncaught
TypeError or AttributeError; never a KeyError. -/
def InitOutcomeSafe (r : Except PyErr Fixture) : Prop :=
  (∃ f, r = .ok f) ∨ r = .error PyErr.typeError ∨ r = .error PyErr.attrError

theorem stepSafe_getItem (j : Json) (k : String) : StepSafe (getItem j k) := by
  intro e h
  cases j <;> simp only [getItem] at h
  case obj fields =>
    cases hl : lookupField fields k <;> rw [hl] at h
    · cases h; left; rfl
    · cases h
  all_goals (cases h; right; left; rfl)

theorem stepSafe_bind {α β : Type} (x : Except PyErr α)
    (f : α → Except PyErr β) (hx : StepSafe x) (hf : ∀ a, StepSafe (f a)) :
    StepSafe (x >>= f) := by
  intro e h
  cases x with
  | ok a => exact hf a e h
  | error e2 =>
    simp only [bind, Except.bind] at h
    cases h
    exact hx _ rfl

theorem stepSafe_pyContainsKey (j : Json) (k : String) :
    StepSafe (pyContainsKey j k) := by
  intro e h
  cases j <;> simp only [pyContainsKey] at h <;> cases h <;> (right; left; rfl)

theorem stepSafe_splitSlashLast (j : Json) : StepSafe (splitSlashLast j) := by
  intro e h
  cases j <;> simp only [splitSlashLast] at h <;> cases h <;> (right; right; rfl)

theorem stepSafe_getHref (data : Json) (side : String) :
    StepSafe (getHref data side) := by
  unfold getHref
  exact stepSafe_bind _ _ (stepSafe_getItem _ _) fun l =>
    stepSafe_bind _ _ (stepSafe_getItem _ _) fun t => stepSafe_getItem _ _

theorem stepSafe_getResultField (data : Json) (k : String) :
    StepSafe (getResultField data k) := by
  unfold getResultField
  exact stepSafe_bind _ _ (stepSafe_getItem _ _) fun l => stepSafe_getItem _ _

theorem stepSafe_getOddsField (data : Json) (k : String) :
    StepSafe (getOddsField data k) := by
  unfold getOddsField
  exact stepSafe_bind _ _ (stepSafe_getItem _ _) fun l => stepSafe_getItem _ _

theorem stepSafe_resultHasHalfTime (data : Json) :
    StepSafe (resultHasHalfTime data) := by
  unfold resultHasHalfTime
  exact stepSafe_bind _ _ (stepSafe_getItem _ _) fun l =>
    stepSafe_pyContainsKey _ _

theorem initOutcomeSafe_withStep {α : Type} (s : Fixture)
    (x : Except PyErr α) (f : α → Except PyErr Fixture)
    (hx : StepSafe x) (hf : ∀ a, InitOutcomeSafe (f a)) :
    InitOutcomeSafe (withStep s x f) := by
  cases x with
  | ok a => exact hf a
  | error e =>
    rcases hx e rfl with h | h | h <;> subst h
    · exact Or.inl ⟨s, rfl⟩
    · exact Or.inr (Or.inl rfl)
    · exact Or.inr (Or.inr rfl)

theorem initOutcomeSafe_oddsPhase (s : Fixture) (data : Json) :
    InitOutcomeSafe (oddsPhase s data) := by
  unfold oddsPhase
  refine initOutcomeSafe_withStep _ _ _ (stepSafe_getItem _ _) fun o => ?_
  cases pyTruthy o
  · exact Or.inl ⟨_, rfl⟩
  · refine initOutcomeSafe_withStep _ _ _ (stepSafe_getOddsField _ _) fun hw => ?_
    refine initOutcomeSafe_withStep _ _ _ (stepSafe_getOddsField _ _) fun dr => ?_
    refine initOutcomeSafe_withStep _ _ _ (stepSafe_getOddsField _ _) fun aw => ?_
    exact Or.inl ⟨_, rfl⟩

theorem initOutcomeSafe_halfTimePhase (s : Fixture) (data : Json)
    (res : FixtureResult) : InitOutcomeSafe (halfTimePhase s data res) := by
  unfold halfTimePhase
  refine initOutcomeSafe_withStep _ _ _ (stepSafe_resultHasHalfTime _) fun hh => ?_
  cases hh
  · exact initOutcomeSafe_oddsPhase _ _
  · refine initOutcomeSafe_withStep _ _ _ (stepSafe_getResultField _ _) fun ht => ?_
    refine initOutcomeSafe_withStep _ _ _ (stepSafe_getItem _ _) fun h1 => ?_
    refine initOutcomeSafe_withStep _ _ _ (stepSafe_getItem _ _) fun h2 => ?_
    exact initOutcomeSafe_oddsPhase _ _

theorem initOutcomeSafe_resultPhase (s : Fixture) (data : Json) :
    InitOutcomeSafe (resultPhase s data) := by
  unfold resultPhase
  refine initOutcomeSafe_withStep _ _ _ (stepSafe_getResultField _ _) fun g => ?_
  cases g.isNull
  · refine initOutcomeSafe_withStep _ _ _ (stepSafe_getResultField _ _) fun g2 => ?_
    refine initOutcomeSafe_withStep _ _ _ (stepSafe_getResultField _ _) fun ga => ?_
    exact initOutcomeSafe_halfTimePhase _ _ _
  · exact initOutcomeSafe_oddsPhase _ _

/-- C5: a malformed document shape never surfaces as an error from
`Fixture.__init__`: the KeyError a missing key raises is always caught
(the handler prints a stack trace, a side effect outside this model) and
the constructor returns normally; the only exceptions that can escape are
TypeError and AttributeError, which arise from type confusion, not from a
missing key. -/
theorem fixture_keyerror_never_raised (data : Json) :
    (∃ f, fixtureInit data = Except.ok f) ∨
    fixtureInit data = Except.error PyErr.typeError ∨
    fixtureInit data = Except.error PyErr.attrError := by
  unfold fixtureInit
  refine initOutcomeSafe_withStep _ _ _ (stepSafe_getHref _ _) fun hho => ?_
  refine initOutcomeSafe_withStep _ _ _ (stepSafe_getHref _ _) fun hao => ?_
  refine initOutcomeSafe_withStep _ _ _ (stepSafe_getHref _ _) fun cmp => ?_
  refine initOutcomeSafe_withStep _ _ _ (stepSafe_getItem _ _) fun dt => ?_
  refine initOutcomeSafe_withStep _ _ _ (stepSafe_getItem _ _) fun st => ?_
  refine initOutcomeSafe_withStep _ _ _ (stepSafe_getItem _ _) fun md => ?_
  refine initOutcomeSafe_withStep _ _ _ (stepSafe_getItem _ _) fun htn => ?_
  refine initOutcomeSafe_withStep _ _ _ (stepSafe_splitSlashLast _) fun hid => ?_
  refine initOutcomeSafe_withStep _ _ _ (stepSafe_getItem _ _) fun atn => ?_
  refine initOutcomeSafe_withStep _ _ _ (stepSafe_splitSlashLast _) fun aid => ?_
  refine initOutcomeSafe_withStep _ _ _ (stepSafe_splitSlashLast _) fun cid => ?_
  exact initOutcomeSafe_resultPhase _ _

theorem withStep_ok {α : Type} (s : Fixture) (x : Except PyErr α)
    (f : α → Except PyErr Fixture) (r : Fixture)
    (h : withStep s x f = Except.ok r) :
    r = s ∨ ∃ a, x = Except.ok a ∧ f a = Except.ok r := by
  unfold withStep at h
  cases x with
  | ok a => exact Or.inr ⟨a, rfl, h⟩
  | error e =>
    cases e
    case keyError => cases h; exact Or.inl rfl
    all_goals cases h

theorem oddsPhase_preserves_ids (s : Fixture) (data : Json) (f : Fixture)
    (h : oddsPhase s data = Except.ok f) :
    f.home_team_id = s.home_team_id ∧ f.away_team_id = s.away_team_id ∧
    f.competition_id = s.competition_id := by
  unfold oddsPhase at h
  rcases withStep_ok _ _ _ _ h with rfl | ⟨o, ho, h2⟩
  · exact ⟨rfl, rfl, rfl⟩
  · cases hb : pyTruthy o <;> rw [hb] at h2
    · cases h2; exact ⟨rfl, rfl, rfl⟩
    · rcases withStep_ok _ _ _ _ h2 with rfl | ⟨hw, hh1, h3⟩
      · exact ⟨rfl, rfl, rfl⟩
      rcases withStep_ok _ _ _ _ h3 with rfl | ⟨dr, hh2, h4⟩
      · exact ⟨rfl, rfl, rfl⟩
      rcases withStep_ok _ _ _ _ h4 with rfl | ⟨aw, hh3, h5⟩
      · exact ⟨rfl, rfl, rfl⟩
      cases h5; exact ⟨rfl, rfl, rfl⟩

theorem halfTimePhase_preserves_ids (s : Fixture) (data : Json)
    (res : FixtureResult) (f : Fixture)
    (h : halfTimePhase s data res = Except.ok f) :
    f.home_team_id = s.home_team_id ∧ f.away_team_id = s.away_team_id ∧
    f.competition_id = s.competition_id := by
  unfold halfTimePhase at h
  rcases withStep_ok _ _ _ _ h with rfl | ⟨b, hb, h2⟩
  · exact ⟨rfl, rfl, rfl⟩
  · cases b
    · exact oddsPhase_preserves_ids _ _ _ h2
    · rcases withStep_ok _ _ _ _ h2 with rfl | ⟨ht, hh1, h3⟩
      · exact ⟨rfl, rfl, rfl⟩
      rcases withStep_ok _ _ _ _ h3 with rfl | ⟨h1v, hh2, h4⟩
      · exact ⟨rfl, rfl, rfl⟩
      rcases withStep_ok _ _ _ _ h4 with rfl | ⟨h2v, hh3, h5⟩
      · exact ⟨rfl, rfl, rfl⟩
      have h6 := oddsPhase_preserves_ids _ _ _ h5
      exact h6

theorem resultPhase_preserves_ids (s : Fixture) (data : Json) (f : Fixture)
    (h : resultPhase s data = Except.ok f) :
    f.home_team_id = s.home_team_id ∧ f.away_team_id = s.away_team_id ∧
    f.competition_id = s.competition_id := by
  unfold resultPhase at h
  rcases withStep_ok _ _ _ _ h with rfl | ⟨g, hg, h2⟩
  · exact ⟨rfl, rfl, rfl⟩
  · cases hb : g.isNull <;> rw [hb] at h2
    · rcases withStep_ok _ _ _ _ h2 with rfl | ⟨g2, hh1, h3⟩
      · exact ⟨rfl, rfl, rfl⟩
      rcases withStep_ok _ _ _ _ h3 with rfl | ⟨ga, hh2, h4⟩
      · exact ⟨rfl, rfl, rfl⟩
      have h5 := halfTimePhase_preserves_ids _ _ _ _ h4
      exact h5
    · have h3 := oddsPhase_preserves_ids _ _ _ h2
      exact h3


/-- C8: for every fixture document of the API shape (arbitrary result and
odds values) on which construction succeeds, the derived fields
home_team_id, away_team_id and competition_id are exactly the tail
segment, the text after the last slash, of the corresponding `_links`
href strings. -/
theorem fixture_ids_are_link_tails (hho hao cmp : String)
    (dt st md htn atn result odds : Json) (f : Fixture)
    (h : fixtureInit (mkFixtureDoc hho hao cmp dt st md htn atn result odds)
      = Except.ok f) :
    f.home_team_id = some (lastSegment hho) ∧
    f.away_team_id = some (lastSegment hao) ∧
    f.competition_id = some (lastSegment cmp) := by
  have h2 : resultPhase (baseFixture hho hao cmp dt st md htn atn)
      (mkFixtureDoc hho hao cmp dt st md htn atn result odds)
      = Except.ok f := h
  have h3 := resultPhase_preserves_ids _ _ _ h2
  exact h3

/-- Witness for C8 on a concrete document with hrefs ending in /5, /6, /7. -/
theorem fixture_ids_are_link_tails_witness :
    fixtureInit (mkFixtureDoc "t/5" "t/6" "c/7" Json.null Json.null Json.null
        Json.null Json.null (Json.obj [("goalsHomeTeam", Json.null)]) Json.null)
      = Except.ok { baseFixture "t/5" "t/6" "c/7" Json.null Json.null Json.null
          Json.null Json.null with result := some none, odds := some none } ∧
    ({ baseFixture "t/5" "t/6" "c/7" Json.null Json.null Json.null
        Json.null Json.null with
        result := some none, odds := some none } : Fixture).home_team_id
      = some (lastSegment "t/5") ∧
    ({ baseFixture "t/5" "t/6" "c/7" Json.null Json.null Json.null
        Json.null Json.null with
        result := some none, odds := some none } : Fixture).away_team_id
      = some (lastSegment "t/6") ∧
    ({ baseFixture "t/5" "t/6" "c/7" Json.null Json.null Json.null
        Json.null Json.null with
        result := some none, odds := some none } : Fixture).competition_id
      = some (lastSegment "c/7") :=
  ⟨rfl, fixture_ids_are_link_tails "t/5" "t/6" "c/7" Json.null Json.null
    Json.null Json.null Json.null (Json.obj [("goalsHomeTeam", Json.null)])
    Json.null _ rfl⟩
